import Mathlib

/-!
Verification of the yllet HTTP transport and React provider.

The Transport component (verb dispatch, query/body encoding, JSON and
HTTP-error handling) is modelled from the design spec, since only its test
suite ships in the sources at hand.  The `Provider` component is embedded
directly from `packages/react/src/provider.js`.
-/

namespace Yllet

/-- A scalar payload value: a string or a number. -/
inductive Scalar where
  | str : String → Scalar
  | num : Int → Scalar

/-- A value of a plain data mapping: a scalar or a sequence of scalars. -/
inductive DataVal where
  | scalar : Scalar → DataVal
  | seq : List Scalar → DataVal

/-- A plain data mapping in key insertion order. -/
abbrev DataMap := List (String × DataVal)

/-- A multipart form payload: an opaque container of name/value entries,
passed through unmodified by the transport. -/
structure FormData where
  entries : List (String × String)

/-- The `data` argument of `request`: a plain mapping or a form payload. -/
inductive Payload where
  | plain : DataMap → Payload
  | form : FormData → Payload

/-- An outgoing request body: JSON text or a form payload object. -/
inductive Body where
  | json : String → Body
  | form : FormData → Body

/-- The `config` argument: a `headers` sub-mapping plus arbitrary
pass-through keys.  The non-header keys are kept separate because the
transport special-cases `headers` and merges everything else verbatim. -/
structure Config where
  headers : List (String × String)
  extra : List (String × String)

/-- The request-options object handed to the injected fetch function. -/
structure RequestOptions where
  method : String
  headers : List (String × String)
  body : Option Body
  extra : List (String × String)

/-- Render one scalar for the query string. -/
def Scalar.encode : Scalar → String
  | Scalar.str s => s
  | Scalar.num n => toString n

/-- Modelled from the spec: one key/value of the data mapping becomes
query-string fragments, with bracket notation for sequence-valued keys
(`key[]=v1&key[]=v2`). -/
def encodePair : String × DataVal → List String
  | (k, DataVal.scalar v) => [k ++ "=" ++ v.encode]
  | (k, DataVal.seq vs) => vs.map (fun v => k ++ "[]=" ++ v.encode)

/-- Modelled from the spec: serialize a plain mapping into a query string
following the insertion order of its keys. -/
def queryString (m : DataMap) : String :=
  String.intercalate "&" (m.map encodePair).flatten

/-- JSON rendering of one scalar. -/
def Scalar.toJson : Scalar → String
  | Scalar.str s => "\"" ++ s ++ "\""
  | Scalar.num n => toString n

/-- JSON rendering of one mapping value. -/
def DataVal.toJson : DataVal → String
  | DataVal.scalar v => v.toJson
  | DataVal.seq vs => "[" ++ String.intercalate "," (vs.map Scalar.toJson) ++ "]"

/-- Modelled from the spec: serialize a plain mapping as JSON text, the way
`JSON.stringify` renders an object in key insertion order. -/
def jsonStringify (m : DataMap) : String :=
  "\x7b" ++ String.intercalate "," (m.map (fun p => "\"" ++ p.1 ++ "\":" ++ p.2.toJson)) ++ "\x7d"

/-- The query verbs: payload data is encoded into the URL, never the body. -/
def isQueryVerb (verb : String) : Bool :=
  verb = "GET" || verb = "DELETE"

/-- The five supported verbs. -/
def supportedVerbs : List String :=
  ["GET", "POST", "PUT", "PATCH", "DELETE"]

/-- The fixed message of the pre-flight usage error. -/
def formDataErrorMessage : String :=
  "Unable to encode FormData for GET, DELETE requests"

/-- Outcome of building the request: either the URL and options handed to
the fetch function, or a synchronous usage error raised before any call. -/
inductive BuildOutcome where
  | ok : String → RequestOptions → BuildOutcome
  | usageError : String → BuildOutcome

/-- Modelled from the spec (the missing `Transport.request` pre-flight):
normalize headers from `config.headers`, branch on the verb class —
query verbs serialize a plain mapping into the URL and reject form
payloads with a type error; body verbs JSON-encode a plain mapping or
pass a form payload through — and merge the method, headers, body and the
non-header `config` keys into one request-options object. -/
def buildRequest (verb url : String) (data : Option Payload) (config : Config) : BuildOutcome :=
  if isQueryVerb verb then
    match data with
    | some (Payload.form _) => BuildOutcome.usageError formDataErrorMessage
    | some (Payload.plain m) =>
        BuildOutcome.ok (if m.isEmpty then url else url ++ ("?" ++ queryString m))
          ⟨verb, config.headers, none, config.extra⟩
    | none => BuildOutcome.ok url ⟨verb, config.headers, none, config.extra⟩
  else
    match data with
    | some (Payload.form fd) =>
        BuildOutcome.ok url ⟨verb, config.headers, some (Body.form fd), config.extra⟩
    | some (Payload.plain m) =>
        BuildOutcome.ok url ⟨verb, config.headers, some (Body.json (jsonStringify m)), config.extra⟩
    | none => BuildOutcome.ok url ⟨verb, config.headers, none, config.extra⟩

/-- The calls a single `request` invocation makes to the injected fetch
function: exactly one on a successful build, none on a usage error. -/
def fetchCalls (verb url : String) (data : Option Payload) (config : Config) :
    List (String × RequestOptions) :=
  match buildRequest verb url data config with
  | BuildOutcome.ok u opts => [(u, opts)]
  | BuildOutcome.usageError _ => []

/-- A parsed JSON value, as resolved from a response body. -/
inductive Json where
  | str : String → Json
  | num : Int → Json
  | obj : List (String × Json) → Json
  | arr : List Json → Json

/-- Field lookup on a parsed JSON object. -/
def Json.lookup : Json → String → Option Json
  | Json.obj fields, k => List.lookup k fields
  | _, _ => none

/-- A response from the injected fetch function: a status code and a body
already parsed as JSON. -/
structure FetchResponse where
  status : Nat
  body : Json

/-- Modelled from the spec: a status denotes success when it is in the 2xx
range, failure otherwise. -/
def isSuccessStatus (status : Nat) : Bool :=
  200 ≤ status && status < 300

/-- The structured HTTP error: the parsed error body and the status code. -/
structure HTTPError where
  response : Json
  status : Nat

/-- Terminal outcome of a request: the promise resolves with the parsed
JSON value, or rejects with an HTTP error. -/
inductive RequestResult where
  | resolved : Json → RequestResult
  | rejected : HTTPError → RequestResult

/-- Modelled from the spec: on success resolve with the parsed body, on a
failure status reject with an HTTP error carrying the body and status. -/
def handleResponse (r : FetchResponse) : RequestResult :=
  if isSuccessStatus r.status then RequestResult.resolved r.body
  else RequestResult.rejected ⟨r.body, r.status⟩

/-- Modelled from the spec: the end-to-end `request` operation given an
injected fetch function — build the request (raising the usage error
synchronously, before any fetch call), invoke fetch once with the computed
URL and options, and normalize the response. -/
def request (fetch : String → RequestOptions → FetchResponse)
    (verb url : String) (data : Option Payload) (config : Config) :
    Except String RequestResult :=
  match buildRequest verb url data config with
  | BuildOutcome.usageError msg => Except.error msg
  | BuildOutcome.ok u opts => Except.ok (handleResponse (fetch u opts))

/-- The data mapping used throughout the test suite:
`\x7bfoo: 'bar', posts: [21, 33, 150]\x7d`. -/
def exampleData : DataMap :=
  [("foo", DataVal.scalar (Scalar.str "bar")),
   ("posts", DataVal.seq [Scalar.num 21, Scalar.num 33, Scalar.num 150])]

/-- An opaque client instance, identified for the model by a number. -/
structure Client where
  id : Nat

/-- An opaque rendered element. -/
structure ReactElement where
  tag : String

/-- The provider's props: an optional client (absent or null is `none`)
and the child element. -/
structure ProviderProps where
  client : Option Client
  children : ReactElement

/-- The constructed provider component, holding its props. -/
structure Provider where
  props : ProviderProps

/-- The configuration-error message thrown by the provider constructor. -/
def providerMissingClientMessage : String :=
  "Yllet client was not passed a client instance. Make sure you pass in your client via the \"client\" prop"

/-- The child context the provider exposes to descendant components. -/
structure ChildContext where
  client : Option Client

/-- Embedded from `packages/react/src/provider.js`: the constructor throws
when `props.client` is falsy, and otherwise constructs the component. -/
def Provider.construct (props : ProviderProps) : Except String Provider :=
  if props.client.isNone then Except.error providerMissingClientMessage
  else Except.ok ⟨props⟩

/-- Embedded from `packages/react/src/provider.js`: `getChildContext`
returns the client taken from the component's props. -/
def Provider.getChildContext (p : Provider) : ChildContext :=
  ⟨p.props.client⟩

/-- Whether the `data` argument is a multipart form payload. -/
def isFormPayload : Option Payload → Bool
  | some (Payload.form _) => true
  | _ => false

/-- The error body used by the http-exception scenario:
`\x7bfoo: 'bar'\x7d`. -/
def errorBody : Json :=
  Json.obj [("foo", Json.str "bar")]

/-- The success body used by the returns-json scenario:
`\x7bdata: \x7bmock: 'response'\x7d\x7d`. -/
def mockBody : Json :=
  Json.obj [("data", Json.obj [("mock", Json.str "response")])]

/-- Whenever the build step succeeds, the produced options carry the
caller's method and the config's headers and pass-through keys verbatim. -/
theorem buildRequest_ok_fields (verb url : String) (data : Option Payload)
    (config : Config) (u : String) (opts : RequestOptions)
    (h : buildRequest verb url data config = BuildOutcome.ok u opts) :
    opts.method = verb ∧ opts.headers = config.headers ∧
      opts.extra = config.extra := by
  unfold buildRequest at h
  rcases data with _ | (m | fd) <;>
    [skip; skip; skip] <;>
    · split at h <;>
        first
          | (cases h; exact ⟨rfl, rfl, rfl⟩)
          | cases h

/-- C1: for GET and DELETE with the mapping data
`\x7bfoo: 'bar', posts: [21, 33, 150]\x7d`, the URL handed to the fetch
function is the endpoint followed by
`?foo=bar&posts[]=21&posts[]=33&posts[]=150` (keys in insertion order,
bracket notation for the sequence-valued key) and the request options
carry no body. -/
theorem getDelete_encodes_mapping_into_url (verb url : String) (config : Config)
    (h : verb = "GET" ∨ verb = "DELETE") :
    ∃ opts : RequestOptions,
      buildRequest verb url (some (Payload.plain exampleData)) config =
        BuildOutcome.ok (url ++ "?foo=bar&posts[]=21&posts[]=33&posts[]=150") opts ∧
      opts.body = none := by
  rcases h with h | h <;> subst h <;>
    exact ⟨⟨_, config.headers, none, config.extra⟩, rfl, rfl⟩

/-- Witness for C1 at the test endpoint with GET. -/
theorem getDelete_encodes_mapping_into_url_witness :
    ∃ opts : RequestOptions,
      buildRequest "GET" "https://wp.com/wp-json"
          (some (Payload.plain exampleData)) ⟨[], []⟩ =
        BuildOutcome.ok
          ("https://wp.com/wp-json" ++ "?foo=bar&posts[]=21&posts[]=33&posts[]=150")
          opts ∧
      opts.body = none :=
  getDelete_encodes_mapping_into_url "GET" "https://wp.com/wp-json" ⟨[], []⟩
    (Or.inl rfl)

/-- C2: for GET and DELETE with a form payload, `request` raises
synchronously the type error "Unable to encode FormData for GET, DELETE
requests" whatever the injected fetch function is, and no fetch call is
made. -/
theorem getDelete_formdata_raises_type_error (verb url : String)
    (fd : FormData) (config : Config) (h : verb = "GET" ∨ verb = "DELETE") :
    (∀ fetch : String → RequestOptions → FetchResponse,
      request fetch verb url (some (Payload.form fd)) config =
        Except.error formDataErrorMessage) ∧
    fetchCalls verb url (some (Payload.form fd)) config = [] := by
  rcases h with h | h <;> subst h <;> exact ⟨fun _ => rfl, rfl⟩

/-- Witness for C2: a GET with a one-entry form payload. -/
theorem getDelete_formdata_raises_type_error_witness :
    (∀ fetch : String → RequestOptions → FetchResponse,
      request fetch "GET" "https://wp.com/wp-json"
          (some (Payload.form ⟨[("foo", "bar")]⟩)) ⟨[], []⟩ =
        Except.error formDataErrorMessage) ∧
    fetchCalls "GET" "https://wp.com/wp-json"
        (some (Payload.form ⟨[("foo", "bar")]⟩)) ⟨[], []⟩ = [] :=
  getDelete_formdata_raises_type_error "GET" "https://wp.com/wp-json"
    ⟨[("foo", "bar")]⟩ ⟨[], []⟩ (Or.inl rfl)

/-- C3: for POST, PUT and PATCH with any plain mapping, the outgoing body
is the JSON serialization of the mapping and the URL is unchanged. -/
theorem bodyVerbs_json_encode_mapping (verb url : String) (m : DataMap)
    (config : Config) (h : verb = "POST" ∨ verb = "PUT" ∨ verb = "PATCH") :
    ∃ opts : RequestOptions,
      buildRequest verb url (some (Payload.plain m)) config =
        BuildOutcome.ok url opts ∧
      opts.body = some (Body.json (jsonStringify m)) := by
  rcases h with h | h | h <;> subst h <;>
    exact ⟨⟨_, config.headers, some (Body.json (jsonStringify m)), config.extra⟩,
      rfl, rfl⟩

/-- Witness for C3: a POST with the test mapping, whose JSON serialization
is spelled out concretely. -/
theorem bodyVerbs_json_encode_mapping_witness :
    (∃ opts : RequestOptions,
      buildRequest "POST" "https://wp.com/wp-json"
          (some (Payload.plain exampleData)) ⟨[], []⟩ =
        BuildOutcome.ok "https://wp.com/wp-json" opts ∧
      opts.body = some (Body.json (jsonStringify exampleData))) ∧
    jsonStringify exampleData = "\x7b\"foo\":\"bar\",\"posts\":[21,33,150]\x7d" :=
  ⟨bodyVerbs_json_encode_mapping "POST" "https://wp.com/wp-json" exampleData
    ⟨[], []⟩ (Or.inl rfl), rfl⟩

/-- C4: for every verb, a response with a failure status and body
`\x7bfoo: 'bar'\x7d` makes `request` reject with an HTTP error whose
`response` field equals that parsed body and which carries the numeric
status code. -/
theorem failure_status_rejects_with_http_error (verb url : String)
    (config : Config) (s : Nat) (h : isSuccessStatus s = false) :
    request (fun _ _ => ⟨s, errorBody⟩) verb url none config =
      Except.ok (RequestResult.rejected ⟨errorBody, s⟩) := by
  unfold request buildRequest
  by_cases hq : isQueryVerb verb <;>
    simp only [hq, if_true, if_false, Bool.false_eq_true, ite_true, ite_false] <;>
    simp [handleResponse, h]

/-- Witness for C4 at status 503 with GET. -/
theorem failure_status_rejects_with_http_error_witness :
    isSuccessStatus 503 = false ∧
    request (fun _ _ => ⟨503, errorBody⟩) "GET" "https://wp.com/wp-json"
        none ⟨[], []⟩ =
      Except.ok (RequestResult.rejected ⟨errorBody, 503⟩) :=
  ⟨rfl, failure_status_rejects_with_http_error "GET" "https://wp.com/wp-json"
    ⟨[], []⟩ 503 rfl⟩

/-- C5: for POST, PUT and PATCH with a form payload, the outgoing body is
that form payload object itself, not JSON-encoded, and the URL is
unchanged. -/
theorem bodyVerbs_pass_formdata_through (verb url : String) (fd : FormData)
    (config : Config) (h : verb = "POST" ∨ verb = "PUT" ∨ verb = "PATCH") :
    ∃ opts : RequestOptions,
      buildRequest verb url (some (Payload.form fd)) config =
        BuildOutcome.ok url opts ∧
      opts.body = some (Body.form fd) := by
  rcases h with h | h | h <;> subst h <;>
    exact ⟨⟨_, config.headers, some (Body.form fd), config.extra⟩, rfl, rfl⟩

/-- Witness for C5: a POST with a one-entry form payload. -/
theorem bodyVerbs_pass_formdata_through_witness :
    ∃ opts : RequestOptions,
      buildRequest "POST" "https://wp.com/wp-json"
          (some (Payload.form ⟨[("foo", "bar")]⟩)) ⟨[], []⟩ =
        BuildOutcome.ok "https://wp.com/wp-json" opts ∧
      opts.body = some (Body.form ⟨[("foo", "bar")]⟩) :=
  bodyVerbs_pass_formdata_through "POST" "https://wp.com/wp-json"
    ⟨[("foo", "bar")]⟩ ⟨[], []⟩ (Or.inl rfl)

/-- C6: for every verb, a successful response with JSON body
`\x7bdata: \x7bmock: 'response'\x7d\x7d` makes `request` resolve with the
parsed value, whose `data` field equals `\x7bmock: 'response'\x7d`. -/
theorem success_resolves_with_parsed_json (verb url : String)
    (config : Config) (s : Nat) (h : isSuccessStatus s = true) :
    ∃ v : Json,
      request (fun _ _ => ⟨s, mockBody⟩) verb url none config =
        Except.ok (RequestResult.resolved v) ∧
      Json.lookup v "data" = some (Json.obj [("mock", Json.str "response")]) := by
  refine ⟨mockBody, ?_, rfl⟩
  unfold request buildRequest
  by_cases hq : isQueryVerb verb <;>
    simp only [hq, if_true, if_false, Bool.false_eq_true, ite_true, ite_false] <;>
    simp [handleResponse, h]

/-- Witness for C6 at status 200 with GET. -/
theorem success_resolves_with_parsed_json_witness :
    isSuccessStatus 200 = true ∧
    ∃ v : Json,
      request (fun _ _ => ⟨200, mockBody⟩) "GET" "https://wp.com/wp-json"
          none ⟨[], []⟩ =
        Except.ok (RequestResult.resolved v) ∧
      Json.lookup v "data" = some (Json.obj [("mock", Json.str "response")]) :=
  ⟨rfl, success_resolves_with_parsed_json "GET" "https://wp.com/wp-json"
    ⟨[], []⟩ 200 rfl⟩

/-- C7: whenever a fetch call is made, every non-header config entry
appears verbatim among the final request options, and every entry of
`config.headers` appears verbatim in the outgoing header set. -/
theorem config_passes_through_verbatim (verb url : String)
    (data : Option Payload) (config : Config) (u : String)
    (opts : RequestOptions)
    (h : buildRequest verb url data config = BuildOutcome.ok u opts) :
    (∀ kv, kv ∈ config.extra → kv ∈ opts.extra) ∧
    (∀ hv, hv ∈ config.headers → hv ∈ opts.headers) := by
  obtain ⟨-, hh, he⟩ := buildRequest_ok_fields verb url data config u opts h
  exact ⟨fun kv hkv => he ▸ hkv, fun hv hhv => hh ▸ hhv⟩

/-- Witness for C7: a GET with one custom header and one extra config key;
both reappear in the built options. -/
theorem config_passes_through_verbatim_witness :
    (∀ kv, kv ∈ (Config.mk [("X-Foo", "bar")] [("foo", "bar")]).extra →
      kv ∈ (RequestOptions.mk "GET" [("X-Foo", "bar")] none [("foo", "bar")]).extra) ∧
    (∀ hv, hv ∈ (Config.mk [("X-Foo", "bar")] [("foo", "bar")]).headers →
      hv ∈ (RequestOptions.mk "GET" [("X-Foo", "bar")] none [("foo", "bar")]).headers) :=
  config_passes_through_verbatim "GET" "https://wp.com/wp-json" none
    ⟨[("X-Foo", "bar")], [("foo", "bar")]⟩ "https://wp.com/wp-json"
    ⟨"GET", [("X-Foo", "bar")], none, [("foo", "bar")]⟩ rfl

/-- C8: for each supported verb, a call that is not the form-payload
usage-error case makes exactly one fetch call, whose options carry exactly
the method string supplied by the caller. -/
theorem request_calls_fetch_once_with_verb (verb url : String)
    (data : Option Payload) (config : Config) (hv : verb ∈ supportedVerbs)
    (hno : ¬(isQueryVerb verb = true ∧ isFormPayload data = true)) :
    ∃ u : String, ∃ opts : RequestOptions,
      fetchCalls verb url data config = [(u, opts)] ∧ opts.method = verb := by
  unfold fetchCalls buildRequest
  by_cases hq : isQueryVerb verb <;>
    rcases data with _ | (m | fd) <;>
    simp only [hq, if_true, if_false, Bool.false_eq_true, ite_true, ite_false]
  · exact ⟨url, ⟨verb, config.headers, none, config.extra⟩, rfl, rfl⟩
  · exact ⟨_, ⟨verb, config.headers, none, config.extra⟩, rfl, rfl⟩
  · exact absurd ⟨hq, rfl⟩ hno
  · exact ⟨url, ⟨verb, config.headers, none, config.extra⟩, rfl, rfl⟩
  · exact ⟨url, ⟨verb, config.headers, some (Body.json (jsonStringify m)), config.extra⟩,
      rfl, rfl⟩
  · exact ⟨url, ⟨verb, config.headers, some (Body.form fd), config.extra⟩, rfl, rfl⟩

/-- Witness for C8: a GET with no data makes exactly one fetch call
carrying method GET. -/
theorem request_calls_fetch_once_with_verb_witness :
    ∃ u : String, ∃ opts : RequestOptions,
      fetchCalls "GET" "https://wp.com/wp-json" none ⟨[], []⟩ = [(u, opts)] ∧
      opts.method = "GET" :=
  request_calls_fetch_once_with_verb "GET" "https://wp.com/wp-json" none
    ⟨[], []⟩ (by simp [supportedVerbs]) (by simp [isFormPayload])

/-- C9: constructing the provider without a client throws the
configuration error synchronously; constructing it with a client succeeds
and `getChildContext` exposes that same client instance to descendants. -/
theorem provider_requires_and_exposes_client :
    (∀ ch : ReactElement,
      Provider.construct ⟨none, ch⟩ =
        Except.error providerMissingClientMessage) ∧
    (∀ (c : Client) (ch : ReactElement),
      Provider.construct ⟨some c, ch⟩ = Except.ok ⟨⟨some c, ch⟩⟩ ∧
      (Provider.getChildContext ⟨⟨some c, ch⟩⟩).client = some c) :=
  ⟨fun _ => rfl, fun _ _ => ⟨rfl, rfl⟩⟩

/-- C10: for POST, PUT and PATCH, an empty plain mapping as data yields
the JSON body "\x7b\x7d", while absent data leaves the body unset; the
two outcomes are distinguishable at the fetch boundary. -/
theorem empty_mapping_vs_absent_data (verb url : String) (config : Config)
    (h : verb = "POST" ∨ verb = "PUT" ∨ verb = "PATCH") :
    (∃ opts : RequestOptions,
      buildRequest verb url (some (Payload.plain [])) config =
        BuildOutcome.ok url opts ∧
      opts.body = some (Body.json "\x7b\x7d")) ∧
    (∃ opts : RequestOptions,
      buildRequest verb url none config =
        BuildOutcome.ok url opts ∧
      opts.body = none) ∧
    some (Body.json "\x7b\x7d") ≠ (none : Option Body) := by
  rcases h with h | h | h <;> subst h <;>
    exact ⟨⟨⟨_, config.headers, some (Body.json "\x7b\x7d"), config.extra⟩, rfl, rfl⟩,
      ⟨⟨_, config.headers, none, config.extra⟩, rfl, rfl⟩,
      fun hc => Option.noConfusion hc⟩

/-- Witness for C10: a POST with the empty mapping and a POST with no
data. -/
theorem empty_mapping_vs_absent_data_witness :
    (∃ opts : RequestOptions,
      buildRequest "POST" "https://wp.com/wp-json"
          (some (Payload.plain [])) ⟨[], []⟩ =
        BuildOutcome.ok "https://wp.com/wp-json" opts ∧
      opts.body = some (Body.json "\x7b\x7d")) ∧
    (∃ opts : RequestOptions,
      buildRequest "POST" "https://wp.com/wp-json" none ⟨[], []⟩ =
        BuildOutcome.ok "https://wp.com/wp-json" opts ∧
      opts.body = none) ∧
    some (Body.json "\x7b\x7d") ≠ (none : Option Body) :=
  empty_mapping_vs_absent_data "POST" "https://wp.com/wp-json" ⟨[], []⟩
    (Or.inl rfl)

end Yllet
